import Mathlib

/-! SameBoy SDL front end (`SDL/main.c`)

A shallow embedding of the run loop, the deferred-command handler, the event
dispatcher, the diagnostic capture and the command-line parsing of
`SDL/main.c`, followed by theorems about them.

The file-scope variables of `main.c` (and the two variables it shares with
`gui.h`) are the fields of `State`.  A call that leaves `main.c` (the engine,
SDL, the menu, the path helpers) is recorded in `State.trace` with its
arguments; whatever such a call hands back to `main.c` (a return value, the
strings it logs, the events it delivers) is an explicit argument of the
embedded function that makes the call.
-/

namespace SameBoy

/-! ## Data model -/

/-- Modelled from the spec: the enumeration behind `pending_command` is declared
in `gui.h`, which is not part of the sources at hand; the spec (section 3) lists
its values as None, NewFile, Reset, ToggleModel, SaveState, LoadState, and
`main.c` names them as below. -/
inductive Command where
  | GB_SDL_NO_COMMAND
  | GB_SDL_NEW_FILE_COMMAND
  | GB_SDL_RESET_COMMAND
  | GB_SDL_TOGGLE_MODEL_COMMAND
  | GB_SDL_SAVE_STATE_COMMAND
  | GB_SDL_LOAD_STATE_COMMAND
  deriving DecidableEq

/-- The engine buttons `main.c` passes to `GB_set_key_state`. -/
inductive GB_key where
  | GB_KEY_RIGHT
  | GB_KEY_LEFT
  | GB_KEY_UP
  | GB_KEY_DOWN
  | GB_KEY_A
  | GB_KEY_B
  | GB_KEY_SELECT
  | GB_KEY_START
  deriving DecidableEq

/-- Modelled from the spec: `replace_extension` and `executable_relative_path`
live in `utils.c`, which is not part of the sources at hand (the spec calls them
path-string utilities, external collaborators).  A path is kept as the call that
builds it. -/
inductive Path where
  | executable_relative_path (name : String)
  | replace_extension (filename : String) (extension : String)
  deriving DecidableEq

/-- Modelled from the spec: the engine (`gb.h`), the menu and the viewport
(`gui.h`: `run_gui`, `update_viewport`, `cycle_scaling`) and the path helpers
are external collaborators (section 1) whose code is not part of the sources at
hand.  A call that leaves `main.c` is recorded here with the arguments `main.c`
passes; the command state (the pending command, its parameter, the model flag,
the pause flag) is written by the dispatcher and the run loop alone (sections 3
and 4.2). -/
inductive Effect where
  | SDL_free (filename : String)
  | GB_set_log_callback (installed : Bool)
  | SDL_ShowSimpleMessageBox (message : String)
  | GB_save_battery (path : Option Path)
  | update_viewport
  | run_gui (is_running : Bool)
  | GB_debugger_break
  | SDL_PauseAudio (pause_on : Bool)
  | cycle_scaling
  | GB_set_key_state (key : GB_key) (pressed : Bool)
  | GB_set_turbo_mode (turbo : Bool) (no_frame_skip : Bool)
  | SDL_UpdateTexture
  | SDL_RenderClear
  | SDL_RenderCopy
  | SDL_RenderPresent
  | GB_load_state (path : Path)
  | GB_save_state (path : Path)
  | GB_reset
  | GB_switch_model_and_reset (is_cgb : Bool)
  | GB_init
  | GB_init_cgb
  | GB_set_vblank_callback
  | GB_set_pixels_output
  | GB_set_rgb_encode_callback
  | GB_set_sample_rate
  | GB_load_boot_rom (path : Path)
  | GB_load_rom (filename : Option String)
  | GB_load_battery (path : Path)
  | GB_debugger_load_symbol_file (path : Path)
  | SDL_WaitEvent
  | GB_run
  | fprintf_stderr (text : String)
  | signal_SIGINT
  | SDL_Init
  | SDL_CreateWindow
  | SDL_SetWindowMinimumSize
  | SDL_CreateRenderer
  | SDL_CreateTexture
  | SDL_AllocFormat
  | SDL_OpenAudio
  | SDL_EventState
  deriving DecidableEq

/-- The variables of `main.c`: its statics, the two variables shared through
`gui.h` (`pending_command`, `command_parameter`), what `main.c` reads back from
the engine and from SDL (`gb_inited` for `GB_is_inited`, `gb_log_callback` for
the sink installed by `GB_set_log_callback`, `audio_playing` for
`SDL_GetAudioStatus`), and the calls made so far.  A `char *` is `none` when
NULL and otherwise the text before the terminator. -/
structure State where
  dmg : Bool
  paused : Bool
  filename : Option String
  should_free_filename : Bool
  battery_save_path_ptr : Option Path
  captured_log : Option String
  pending_command : Command
  command_parameter : Int
  gb_inited : Bool
  gb_log_callback : Bool
  audio_playing : Bool
  trace : List Effect
  deriving DecidableEq

/-- The values of the statics when `main` starts: `dmg = false`,
`paused = false`, `filename = NULL`, `captured_log = NULL`; `run` assigns
`pending_command` before reading it. -/
def initial_state : State where
  dmg := false
  paused := false
  filename := none
  should_free_filename := false
  battery_save_path_ptr := none
  captured_log := none
  pending_command := Command.GB_SDL_NO_COMMAND
  command_parameter := 0
  gb_inited := false
  gb_log_callback := false
  audio_playing := false
  trace := []

/-- How a piece of `main.c` ends: it returns a value (`running`), it calls
`exit` (`exited`), or it dereferences a NULL pointer (`undefined`). -/
inductive Result (α : Type) where
  | running (value : α) (state : State)
  | exited (status : Int) (state : State)
  | undefined (state : State)
  deriving DecidableEq

/-- The state in which a piece of code ended. -/
def Result.state {α : Type} : Result α → State
  | Result.running _ s => s
  | Result.exited _ s => s
  | Result.undefined s => s

/-- Sequencing: the rest of the code runs only when the first part returned. -/
def Result.bind {α β : Type} (r : Result α) (f : α → State → Result β) : Result β :=
  match r with
  | Result.running a s => f a s
  | Result.exited c s => Result.exited c s
  | Result.undefined s => Result.undefined s

/-- Record one outgoing call. -/
def emit (e : Effect) (s : State) : State :=
  { s with trace := s.trace ++ [e] }

/-- Record several outgoing calls, in order. -/
def emits (es : List Effect) (s : State) : State :=
  { s with trace := s.trace ++ es }

/-! ## SDL constants read by `main.c` -/

abbrev SDL_QUIT : Nat := 0x100
abbrev SDL_WINDOWEVENT : Nat := 0x200
abbrev SDL_KEYDOWN : Nat := 0x300
abbrev SDL_KEYUP : Nat := 0x301
abbrev SDL_DROPFILE : Nat := 0x1000
abbrev SDL_WINDOWEVENT_RESIZED : Nat := 5

abbrev KMOD_SHIFT : Nat := 0x0003
abbrev KMOD_CTRL : Nat := 0x00C0
abbrev KMOD_GUI : Nat := 0x0C00

abbrev SDLK_BACKSPACE : Int := 8
abbrev SDLK_TAB : Int := 9
abbrev SDLK_RETURN : Int := 13
abbrev SDLK_ESCAPE : Int := 27
abbrev SDLK_SPACE : Int := 32
abbrev SDLK_0 : Int := 48
abbrev SDLK_9 : Int := 57
abbrev SDLK_c : Int := 99
abbrev SDLK_m : Int := 109
abbrev SDLK_p : Int := 112
abbrev SDLK_r : Int := 114
abbrev SDLK_t : Int := 116
abbrev SDLK_x : Int := 120
abbrev SDLK_z : Int := 122
abbrev SDLK_RIGHT : Int := 0x4000004F
abbrev SDLK_LEFT : Int := 0x40000050
abbrev SDLK_DOWN : Int := 0x40000051
abbrev SDLK_UP : Int := 0x40000052

/-- The `MODIFIER` macro of `handle_events`: `KMOD_GUI` under `__APPLE__`,
`KMOD_CTRL` elsewhere. -/
def MODIFIER (apple : Bool) : Nat :=
  if apple then KMOD_GUI else KMOD_CTRL

/-- The members of the `SDL_Event` union that `handle_events` reads:
`event.type`, `event.drop.file`, `event.window.event`, `event.key.keysym.sym`
and `event.key.keysym.mod`.  The code reads the two `keysym` members of a window
event as well (its case has no `break`), so an event of any type carries them. -/
structure SDL_Event where
  type : Nat
  drop_file : String
  window_event : Nat
  sym : Int
  mod : Nat
  deriving DecidableEq

/-! ## `set_filename` and the diagnostic capture -/

/-- `set_filename`, lines 24-31. -/
def set_filename (new_filename : Option String) (new_should_free : Bool) (s : State) : State :=
  let s1 :=
    match s.filename with
    | some f => if s.should_free_filename then emit (Effect.SDL_free f) s else s
    | none => s
  { s1 with filename := new_filename, should_free_filename := new_should_free }

/-- `log_capture_callback`, lines 37-44: append `string` to `captured_log`
(`strlen(captured_log)` with a NULL buffer is undefined). -/
def log_capture_callback (string : String) (s : State) : Result Unit :=
  match s.captured_log with
  | none => Result.undefined s
  | some log => Result.running () { s with captured_log := some (log ++ string) }

/-- `start_capturing_logs`, lines 46-54: a fresh empty buffer, then the
callback is installed. -/
def start_capturing_logs (s : State) : State :=
  emit (Effect.GB_set_log_callback true)
    { s with captured_log := some "", gb_log_callback := true }

/-- `end_capturing_logs`, lines 56-72. -/
def end_capturing_logs (show_popup should_exit : Bool) (s : State) : Result (Option String) :=
  let s1 := emit (Effect.GB_set_log_callback false) { s with gb_log_callback := false }
  match s1.captured_log with
  | none => Result.undefined s1
  | some log =>
    if log = "" then
      Result.running none { s1 with captured_log := none }
    else
      let s2 := if show_popup then emit (Effect.SDL_ShowSimpleMessageBox log) s1 else s1
      if should_exit then Result.exited 1 s2 else Result.running (some log) s2

/-- The engine calls the installed log callback once per string. -/
def deliver_logs : List String → State → Result Unit
  | [], s => Result.running () s
  | string :: rest, s =>
    match log_capture_callback string s with
    | Result.running _ s1 => deliver_logs rest s1
    | Result.exited c s1 => Result.exited c s1
    | Result.undefined s1 => Result.undefined s1

/-- Modelled from the spec: the engine is not part of the sources at hand; it
"reports failures via out-of-band text callbacks" (section 4.1).  `GB_log`
stands for the strings one engine call emits: they reach
`log_capture_callback` when `GB_set_log_callback` installed it, and stay inside
the engine otherwise. -/
def GB_log (strings : List String) (s : State) : Result Unit :=
  if s.gb_log_callback then deliver_logs strings s else Result.running () s

/-- One capture session: `start_capturing_logs ()`, the strings the engine
emits, `end_capturing_logs (show_popup, should_exit)`. -/
def capture_session (strings : List String) (show_popup should_exit : Bool) (s : State) :
    Result (Option String) :=
  (GB_log strings (start_capturing_logs s)).bind
    (fun _ s1 => end_capturing_logs show_popup should_exit s1)

/-! ## The event dispatcher -/

/-- `SDL_PauseAudio`: the call, after which `SDL_GetAudioStatus` reports
playing exactly when `pause_on` is false. -/
def SDL_PauseAudio (pause_on : Bool) (s : State) : State :=
  emit (Effect.SDL_PauseAudio pause_on) { s with audio_playing := !pause_on }

/-- The inner `switch` under `case SDL_KEYDOWN`, lines 102-163. -/
def keydown_switch (apple : Bool) (event : SDL_Event) (s : State) : State :=
  if event.sym = SDLK_ESCAPE then emit (Effect.run_gui true) s
  else if event.sym = SDLK_c then
    if event.type = SDL_KEYDOWN ∧ event.mod &&& KMOD_CTRL ≠ 0 then
      emit Effect.GB_debugger_break s
    else s
  else if event.sym = SDLK_r then
    if event.mod &&& MODIFIER apple ≠ 0 then
      { s with pending_command := Command.GB_SDL_RESET_COMMAND }
    else s
  else if event.sym = SDLK_t then
    if event.mod &&& MODIFIER apple ≠ 0 then
      { s with pending_command := Command.GB_SDL_TOGGLE_MODEL_COMMAND }
    else s
  else if event.sym = SDLK_p then
    if event.mod &&& MODIFIER apple ≠ 0 then { s with paused := !s.paused } else s
  else if event.sym = SDLK_m then
    if event.mod &&& MODIFIER apple ≠ 0 then
      if apple = true ∧ event.mod &&& KMOD_SHIFT = 0 then s
      else
        SDL_PauseAudio s.audio_playing s
    else s
  else if event.sym = SDLK_TAB then emit Effect.cycle_scaling s
  else if SDLK_0 ≤ event.sym ∧ event.sym ≤ SDLK_9 then
    if event.mod &&& MODIFIER apple ≠ 0 then
      let s1 := { s with command_parameter := event.sym - SDLK_0 }
      if event.mod &&& KMOD_SHIFT ≠ 0 then
        { s1 with pending_command := Command.GB_SDL_LOAD_STATE_COMMAND }
      else
        { s1 with pending_command := Command.GB_SDL_SAVE_STATE_COMMAND }
    else s
  else s

/-- The inner `switch` under `case SDL_KEYUP`, lines 165-193. -/
def keyup_switch (event : SDL_Event) (s : State) : State :=
  let pressed : Bool := decide (event.type = SDL_KEYDOWN)
  if event.sym = SDLK_RIGHT then emit (Effect.GB_set_key_state GB_key.GB_KEY_RIGHT pressed) s
  else if event.sym = SDLK_LEFT then emit (Effect.GB_set_key_state GB_key.GB_KEY_LEFT pressed) s
  else if event.sym = SDLK_UP then emit (Effect.GB_set_key_state GB_key.GB_KEY_UP pressed) s
  else if event.sym = SDLK_DOWN then emit (Effect.GB_set_key_state GB_key.GB_KEY_DOWN pressed) s
  else if event.sym = SDLK_x then emit (Effect.GB_set_key_state GB_key.GB_KEY_A pressed) s
  else if event.sym = SDLK_z then emit (Effect.GB_set_key_state GB_key.GB_KEY_B pressed) s
  else if event.sym = SDLK_BACKSPACE then
    emit (Effect.GB_set_key_state GB_key.GB_KEY_SELECT pressed) s
  else if event.sym = SDLK_RETURN then
    emit (Effect.GB_set_key_state GB_key.GB_KEY_START pressed) s
  else if event.sym = SDLK_SPACE then emit (Effect.GB_set_turbo_mode pressed false) s
  else s

/-- The body of the `while (SDL_PollEvent(&event))` loop, lines 84-197: the
outer `switch`, with the fallthrough from `SDL_WINDOWEVENT` into `SDL_KEYDOWN`
and from `SDL_KEYDOWN` into `SDL_KEYUP`. -/
def handle_event (apple : Bool) (event : SDL_Event) (s : State) : Result Unit :=
  if event.type = SDL_QUIT then
    Result.exited 0 (emit (Effect.GB_save_battery s.battery_save_path_ptr) s)
  else if event.type = SDL_DROPFILE then
    Result.running ()
      { set_filename (some event.drop_file) true s with
        pending_command := Command.GB_SDL_NEW_FILE_COMMAND }
  else if event.type = SDL_WINDOWEVENT then
    let s1 :=
      if event.window_event = SDL_WINDOWEVENT_RESIZED then emit Effect.update_viewport s else s
    Result.running () (keyup_switch event (keydown_switch apple event s1))
  else if event.type = SDL_KEYDOWN then
    Result.running () (keyup_switch event (keydown_switch apple event s))
  else if event.type = SDL_KEYUP then
    Result.running () (keyup_switch event s)
  else Result.running () s

/-- `handle_events`, lines 74-199: `events` is what the successive calls of
`SDL_PollEvent` return until the queue is empty. -/
def handle_events (apple : Bool) : List SDL_Event → State → Result Unit
  | [], s => Result.running () s
  | event :: rest, s =>
    match handle_event apple event s with
    | Result.running _ s1 => handle_events apple rest s1
    | Result.exited c s1 => Result.exited c s1
    | Result.undefined s1 => Result.undefined s1

/-- `vblank`, lines 201-208. -/
def vblank (apple : Bool) (events : List SDL_Event) (s : State) : Result Unit :=
  handle_events apple events
    (emits [Effect.SDL_UpdateTexture, Effect.SDL_RenderClear, Effect.SDL_RenderCopy,
      Effect.SDL_RenderPresent] s)

/-! ## The deferred-command handler and the run loop -/

/-- The C string in the array `save_extension` of `handle_pending_command`
after `save_extension[2] += command_parameter`: the text `.s` followed by the
character `0` advanced by the slot number (a `char`, so modulo 256); when that
byte is 0 the string ends after `.s`. -/
def save_extension (command_parameter : Int) : String :=
  if (48 + command_parameter) % 256 = 0 then ".s"
  else ".s" ++ String.singleton (Char.ofNat ((48 + command_parameter) % 256).toNat)

/-- `handle_pending_command`, lines 236-272.  `logs` is what the engine emits
during `GB_load_state` or `GB_save_state`; `strlen(filename)` with a NULL
`filename` is undefined. -/
def handle_pending_command (logs : List String) (s : State) : Result Bool :=
  match s.pending_command with
  | Command.GB_SDL_LOAD_STATE_COMMAND | Command.GB_SDL_SAVE_STATE_COMMAND =>
    match s.filename with
    | none => Result.undefined s
    | some filename =>
      let save_path := Path.replace_extension filename (save_extension s.command_parameter)
      let s1 := start_capturing_logs s
      let s2 :=
        if s1.pending_command = Command.GB_SDL_LOAD_STATE_COMMAND then
          emit (Effect.GB_load_state save_path) s1
        else
          emit (Effect.GB_save_state save_path) s1
      (GB_log logs s2).bind (fun _ s3 =>
        (end_capturing_logs true false s3).bind (fun _ s4 => Result.running false s4))
  | Command.GB_SDL_RESET_COMMAND => Result.running false (emit Effect.GB_reset s)
  | Command.GB_SDL_NO_COMMAND => Result.running false s
  | Command.GB_SDL_NEW_FILE_COMMAND => Result.running true s
  | Command.GB_SDL_TOGGLE_MODEL_COMMAND => Result.running true { s with dmg := !s.dmg }

/-- The start of `run` after the label `restart`, lines 278-293: the engine is
switched to the selected model when it is initialised already, and initialised
and wired to its callbacks otherwise. -/
def after_engine_init (s : State) : State :=
  if s.gb_inited then emit (Effect.GB_switch_model_and_reset (!s.dmg)) s
  else
    emits [Effect.GB_set_vblank_callback, Effect.GB_set_pixels_output,
        Effect.GB_set_rgb_encode_callback, Effect.GB_set_sample_rate]
      { emit (if s.dmg then Effect.GB_init else Effect.GB_init_cgb) s with gb_inited := true }

/-- What one of the two load calls of `run` hands back: its return value
(`error`, nonzero on failure) and the strings it emitted meanwhile. -/
structure LoadOutcome where
  error : Bool
  logs : List String
  deriving DecidableEq

/-- The first part of `run` after the label `restart`, lines 278-307: the engine
is initialised or switched (`after_engine_init`), then the boot image and the
program image are loaded, each inside a capture session. -/
def run_load (boot rom : LoadOutcome) (s : State) : Result Unit :=
  let s1 := after_engine_init s
  let s2 := start_capturing_logs s1
  let s3 :=
    if s2.dmg then
      emit (Effect.GB_load_boot_rom (Path.executable_relative_path "dmg_boot.bin")) s2
    else
      emit (Effect.GB_load_boot_rom (Path.executable_relative_path "cgb_boot.bin")) s2
  (GB_log boot.logs s3).bind (fun _ s4 =>
    (end_capturing_logs true boot.error s4).bind (fun _ s5 =>
      let s6 := emit (Effect.GB_load_rom s5.filename) (start_capturing_logs s5)
      (GB_log rom.logs s6).bind (fun _ s7 =>
        (end_capturing_logs true rom.error s7).bind (fun _ s8 => Result.running () s8))))

/-- The second part of `run` before the loop, lines 309-322: battery and symbol
files (`strlen(filename)` with a NULL `filename` is undefined). -/
def run_configure (s : State) : Result Unit :=
  match s.filename with
  | none => Result.undefined s
  | some filename =>
    let battery_save_path := Path.replace_extension filename ".sav"
    let s1 := { s with battery_save_path_ptr := some battery_save_path }
    Result.running ()
      (emits [Effect.GB_load_battery battery_save_path,
          Effect.GB_debugger_load_symbol_file (Path.executable_relative_path "registers.sym"),
          Effect.GB_debugger_load_symbol_file (Path.replace_extension filename ".sym")] s1)

/-- One (re)initialisation of `run`: from the label `restart` to the loop. -/
def run_init (boot rom : LoadOutcome) (s : State) : Result Unit :=
  (run_load boot rom s).bind (fun _ s1 => run_configure s1)

/-- Modelled from the spec: `GB_run` belongs to the engine, which is not part
of the sources at hand; one call advances the engine "by one unit of emulated
work (which synchronously triggers the Frame Presentation Callback zero or more
times)" (section 4.6).  `frames` holds, for each time the engine calls `vblank`
during this call, the events queued at that moment. -/
def GB_run (apple : Bool) : List (List SDL_Event) → State → Result Unit
  | [], s => Result.running () s
  | events :: rest, s =>
    match vblank apple events s with
    | Result.running _ s1 => GB_run apple rest s1
    | Result.exited c s1 => Result.exited c s1
    | Result.undefined s1 => Result.undefined s1

/-- What the outside world supplies to one iteration of the loop of `run`: the
events queued after `SDL_WaitEvent` (read when paused), the frames of `GB_run`
(read when not paused), and the strings the engine emits if the pending command
saves or loads a snapshot. -/
structure StepInput where
  events : List SDL_Event
  frames : List (List SDL_Event)
  logs : List String
  deriving DecidableEq

/-- The stepping part of one iteration, lines 326-332. -/
def run_step (apple : Bool) (inp : StepInput) (s : State) : Result Unit :=
  if s.paused then handle_events apple inp.events (emit Effect.SDL_WaitEvent s)
  else GB_run apple inp.frames (emit Effect.GB_run s)

/-- The command part of one iteration, lines 335-339; the value is `true` on
`goto restart` and `false` when the loop goes on. -/
def run_command (logs : List String) (s : State) : Result Bool :=
  (handle_pending_command logs s).bind (fun restart s1 =>
    if restart then
      Result.running true { s1 with pending_command := Command.GB_SDL_NO_COMMAND }
    else
      Result.running false { s1 with pending_command := Command.GB_SDL_NO_COMMAND })

/-- One iteration of the `while (true)` loop of `run`, lines 325-340. -/
def run_iteration (apple : Bool) (inp : StepInput) (s : State) : Result Bool :=
  (run_step apple inp s).bind (fun _ s1 => run_command inp.logs s1)

/-! ## Command-line parsing -/

/-- One turn of the `for` loop of `main`, lines 356-367; `none` is
`goto usage`. -/
def main_argument (arg : String) (s : State) : Option State :=
  if arg = "--dmg" then
    if s.dmg then none else some { s with dmg := true }
  else if s.filename = none then some { s with filename := some arg }
  else none

/-- The label `usage` of `main`, lines 350-353. -/
def usage (argv : List String) (s : State) : Result Unit :=
  Result.exited 1
    (emit (Effect.fprintf_stderr ("Usage: " ++ argv.headD "" ++ " [--dmg] [rom]\n")) s)

/-- The `for` loop of `main` over `argv[1]`, ..., `argv[argc - 1]`, lines
355-368; `args` is what is left of them. -/
def main_arguments (argv : List String) : List String → State → Result Unit
  | [], s => Result.running () s
  | arg :: rest, s =>
    match main_argument arg s with
    | some s1 => main_arguments argv rest s1
    | none => usage argv s

/-- `main` up to the point where it hands over to the menu and to `run`, lines
343-402; `version` is the build macro `VERSION`, `argv` has `argc` entries. -/
def main (version : String) (argv : List String) (s : State) : Result Unit :=
  let s1 := emit (Effect.fprintf_stderr ("SameBoy v" ++ version ++ "\n")) s
  if argv.length > 3 then usage argv s1
  else
    (main_arguments argv argv.tail s1).bind (fun _ s2 =>
      let s3 :=
        emits [Effect.signal_SIGINT, Effect.SDL_Init, Effect.SDL_CreateWindow,
          Effect.SDL_SetWindowMinimumSize, Effect.SDL_CreateRenderer, Effect.SDL_CreateTexture,
          Effect.SDL_AllocFormat, Effect.SDL_OpenAudio] s2
      Result.running () (emit Effect.SDL_EventState (SDL_PauseAudio false s3)))

/-! ## Definitions used in the statements -/

/-- The snapshot branch of `handle_pending_command`: the state it returns in. -/
def after_snapshot (logs : List String) (filename : String) (s : State) : State :=
  { s with
    captured_log := if String.join logs = "" then none else some (String.join logs)
    gb_log_callback := false
    trace := s.trace ++
      [Effect.GB_set_log_callback true,
        if s.pending_command = Command.GB_SDL_LOAD_STATE_COMMAND then
          Effect.GB_load_state (Path.replace_extension filename (save_extension s.command_parameter))
        else
          Effect.GB_save_state (Path.replace_extension filename (save_extension s.command_parameter)),
        Effect.GB_set_log_callback false] ++
      (if String.join logs = "" then [] else [Effect.SDL_ShowSimpleMessageBox (String.join logs)]) }

/-- A running state with pending SaveState in slot 3, program `game.gb`. -/
def example_state : State :=
  { initial_state with
    filename := some "game.gb"
    gb_inited := true
    pending_command := Command.GB_SDL_SAVE_STATE_COMMAND
    command_parameter := 3 }

/-- The engine calls that apply a command: reset, model switch, snapshot save
and snapshot load. -/
def applies_command : Effect → Bool
  | Effect.GB_reset => true
  | Effect.GB_switch_model_and_reset _ => true
  | Effect.GB_save_state _ => true
  | Effect.GB_load_state _ => true
  | _ => false

/-- What the dispatcher may do between two states: the model flag stays, a
pending command is kept or replaced by another command (never by None), the
parameter is kept or set to a slot in 0..9, a program path stays in place, and
the calls made in between apply no command. -/
structure Dispatched (s s1 : State) : Prop where
  dmg_eq : s1.dmg = s.dmg
  pending : s1.pending_command = s.pending_command ∨
    s1.pending_command ≠ Command.GB_SDL_NO_COMMAND
  parameter : s1.command_parameter = s.command_parameter ∨
    (0 ≤ s1.command_parameter ∧ s1.command_parameter ≤ 9)
  filename : s.filename ≠ none → s1.filename ≠ none
  trace : ∃ t, s1.trace = s.trace ++ t ∧ t.all (fun e => !applies_command e) = true

/-- The dispatcher either returns or leaves through `exit(0)`. -/
def returns_or_quits {α : Type} : Result α → Prop
  | Result.running _ _ => True
  | Result.exited status _ => status = 0
  | Result.undefined _ => False

/-- A key event: `type` is `SDL_KEYDOWN` or `SDL_KEYUP`. -/
def key_event (type : Nat) (sym : Int) (mod : Nat) : SDL_Event :=
  { type := type, drop_file := "", window_event := 0, sym := sym, mod := mod }

/-- One frame in which Ctrl+T is pressed, then nothing else. -/
def toggle_input : StepInput :=
  { events := [], frames := [[key_event SDL_KEYDOWN SDLK_t 0x0040]], logs := [] }

/-- Ctrl+3 as a key-down event (left Ctrl, key `3`). -/
def ctrl_3 : SDL_Event := key_event SDL_KEYDOWN 51 0x0040

/-- The eight mapped keys and their engine buttons, as the spec lists them:
Right, Left, Up, Down, X for A, Z for B, Backspace for Select, Return for
Start. -/
def mapped_key (sym : Int) : Option GB_key :=
  if sym = SDLK_RIGHT then some GB_key.GB_KEY_RIGHT
  else if sym = SDLK_LEFT then some GB_key.GB_KEY_LEFT
  else if sym = SDLK_UP then some GB_key.GB_KEY_UP
  else if sym = SDLK_DOWN then some GB_key.GB_KEY_DOWN
  else if sym = SDLK_x then some GB_key.GB_KEY_A
  else if sym = SDLK_z then some GB_key.GB_KEY_B
  else if sym = SDLK_BACKSPACE then some GB_key.GB_KEY_SELECT
  else if sym = SDLK_RETURN then some GB_key.GB_KEY_START
  else none

/-- The command an event writes according to the spec, if it writes one: a
dropped file writes NewFile; a key-down with the platform modifier held writes
Reset for R, ToggleModel for T, and for a digit LoadState with shift held and
SaveState without.  Every other event writes none. -/
def listed_command (apple : Bool) (event : SDL_Event) : Option Command :=
  if event.type = SDL_DROPFILE then some Command.GB_SDL_NEW_FILE_COMMAND
  else if event.type = SDL_KEYDOWN then
    if event.mod &&& MODIFIER apple ≠ 0 then
      if event.sym = SDLK_r then some Command.GB_SDL_RESET_COMMAND
      else if event.sym = SDLK_t then some Command.GB_SDL_TOGGLE_MODEL_COMMAND
      else if SDLK_0 ≤ event.sym ∧ event.sym ≤ SDLK_9 then
        if event.mod &&& KMOD_SHIFT ≠ 0 then some Command.GB_SDL_LOAD_STATE_COMMAND
        else some Command.GB_SDL_SAVE_STATE_COMMAND
      else none
    else none
  else none

/-- A window event (`SDL_WINDOWEVENT_MOVED`) whose union bytes read as the key
R (`window.data2 = 114`) with left Ctrl in the bytes of `keysym.mod`. -/
def window_moved_event : SDL_Event :=
  { type := SDL_WINDOWEVENT, drop_file := "", window_event := 4, sym := SDLK_r, mod := 0x0040 }

/-- A drop, Ctrl+R, a plain key, then Ctrl+T: ToggleModel wins. -/
def overwriting_events : List SDL_Event :=
  [{ type := SDL_DROPFILE, drop_file := "other.gb", window_event := 0, sym := 0, mod := 0 },
    key_event SDL_KEYDOWN SDLK_r 0x0040, key_event SDL_KEYDOWN SDLK_x 0,
    key_event SDL_KEYDOWN SDLK_t 0x0080]

/-- The rejected argument vectors, in the words of the spec: more than three
entries (`argc > 3`), or `--dmg` given more than once, or more than one argument
other than `--dmg`.  The arguments are `argv[1]` onwards. -/
def rejected (argv : List String) : Bool :=
  decide (argv.length > 3) || decide (argv.tail.count "--dmg" > 1) ||
    decide ((argv.tail.filter (fun arg => arg ≠ "--dmg")).length > 1)

/-- The calls of a usage error: the version line and the usage message, and
nothing else (no window is created). -/
def usage_trace (version : String) (argv : List String) : List Effect :=
  [Effect.fprintf_stderr ("SameBoy v" ++ version ++ "\n"),
    Effect.fprintf_stderr ("Usage: " ++ argv.headD "" ++ " [--dmg] [rom]\n")]

/-- The state after one capture session of `run` around the engine call `call`
that started in `s` and captured `text`: `captured_log` is NULL again when the
text is empty and holds it otherwise; the calls made are `GB_set_log_callback`,
`call`, `GB_set_log_callback (NULL)`, and then the popup exactly when the text
is not empty. -/
def after_load_call (call : Effect) (text : String) (s : State) : State :=
  { s with
    captured_log := if text = "" then none else some text
    gb_log_callback := false
    trace := s.trace ++
      [Effect.GB_set_log_callback true, call, Effect.GB_set_log_callback false] ++
      (if text = "" then [] else [Effect.SDL_ShowSimpleMessageBox text]) }

/-- The engine call of `run` on the boot image, for the current model. -/
def boot_call (s : State) : Effect :=
  if s.dmg then Effect.GB_load_boot_rom (Path.executable_relative_path "dmg_boot.bin")
  else Effect.GB_load_boot_rom (Path.executable_relative_path "cgb_boot.bin")

/-- A restart of `run` with the enhanced model and program `game.gb`. -/
def restart_state : State :=
  { initial_state with filename := some "game.gb", gb_inited := true }

/-! ## Auxiliary facts -/

theorem foldl_append_eq (xs : List String) (acc : String) :
    List.foldl (fun r t => r ++ t) acc xs = acc ++ String.join xs := by
  induction xs generalizing acc with
  | nil => simp [String.join]
  | cons x xs ih =>
    have h1 := ih (acc ++ x)
    have h2 := ih ("" ++ x)
    simp only [String.join, List.foldl_cons] at h1 h2 ⊢
    rw [h1, h2, String.empty_append, String.append_assoc]

theorem join_cons (x : String) (xs : List String) :
    String.join (x :: xs) = x ++ String.join xs := by
  have h := foldl_append_eq xs ("" ++ x)
  simp only [String.join, List.foldl_cons] at h ⊢
  rw [h, String.empty_append]

/-- With a buffer in place, delivering strings appends their concatenation. -/
theorem deliver_logs_some (strings : List String) (s : State) (log : String)
    (h : s.captured_log = some log) :
    deliver_logs strings s =
      Result.running () { s with captured_log := some (log ++ String.join strings) } := by
  induction strings generalizing s log with
  | nil =>
    cases s
    simp_all [deliver_logs, String.join]
  | cons x xs ih =>
    simp only [deliver_logs, log_capture_callback, h]
    rw [ih _ (log ++ x) rfl, join_cons, String.append_assoc]

/-- The engine call between `start_capturing_logs` and `end_capturing_logs`:
with the callback installed and an empty buffer, the strings end up in the
buffer, and `end_capturing_logs` decides on their concatenation. -/
theorem capture_end (strings : List String) (show_popup should_exit : Bool) (s : State)
    (hlog : s.captured_log = some "") (hcb : s.gb_log_callback = true) :
    (GB_log strings s).bind (fun _ s1 => end_capturing_logs show_popup should_exit s1) =
      if String.join strings = "" then
        Result.running none
          { s with
            captured_log := none
            gb_log_callback := false
            trace := s.trace ++ [Effect.GB_set_log_callback false] }
      else if should_exit then
        Result.exited 1
          { s with
            captured_log := some (String.join strings)
            gb_log_callback := false
            trace := s.trace ++ [Effect.GB_set_log_callback false] ++
              (if show_popup then [Effect.SDL_ShowSimpleMessageBox (String.join strings)] else []) }
      else
        Result.running (some (String.join strings))
          { s with
            captured_log := some (String.join strings)
            gb_log_callback := false
            trace := s.trace ++ [Effect.GB_set_log_callback false] ++
              (if show_popup then [Effect.SDL_ShowSimpleMessageBox (String.join strings)] else []) } := by
  rw [GB_log, if_pos hcb, deliver_logs_some strings s "" hlog]
  simp only [Result.bind, end_capturing_logs, emit, String.empty_append]
  by_cases hj : String.join strings = ""
  · simp [hj]
  · cases show_popup <;> cases should_exit <;> simp [hj]

theorem GB_log_installed (strings : List String) (s : State) (log : String)
    (hlog : s.captured_log = some log) (hcb : s.gb_log_callback = true) :
    GB_log strings s =
      Result.running () { s with captured_log := some (log ++ String.join strings) } := by
  rw [GB_log, if_pos hcb, deliver_logs_some strings s log hlog]

theorem handle_pending_command_snapshot (logs : List String) (s : State) (filename : String)
    (hf : s.filename = some filename)
    (hp : s.pending_command = Command.GB_SDL_LOAD_STATE_COMMAND ∨
      s.pending_command = Command.GB_SDL_SAVE_STATE_COMMAND) :
    handle_pending_command logs s = Result.running false (after_snapshot logs filename s) := by
  rcases hp with hp | hp
  · simp only [handle_pending_command, hp, hf]
    simp only [start_capturing_logs, emit, hp, if_true]
    rw [GB_log_installed logs _ "" rfl rfl]
    by_cases hj : String.join logs = "" <;>
      simp [hj, Result.bind, after_snapshot, hp, end_capturing_logs, emit]
  · simp only [handle_pending_command, hp, hf]
    simp only [start_capturing_logs, emit, hp]
    rw [if_neg (by decide), GB_log_installed logs _ "" rfl rfl]
    by_cases hj : String.join logs = "" <;>
      simp [hj, Result.bind, after_snapshot, hp, end_capturing_logs, emit]

/-! ## Diagnostic capture -/

/-- C5: a capture session (`start_capturing_logs`, the strings the engine emits
through `log_capture_callback`, `end_capturing_logs (show_popup, should_exit)`)
started in any state `s`, whatever an earlier session left in `captured_log`:
when the concatenation of the emitted strings is empty it returns NULL, the only
outgoing calls are the two `GB_set_log_callback` calls (no popup) and the
process goes on, for both flags; when it is not empty and `should_exit` is
false it returns exactly the concatenation, and the popup showing it is made
exactly when `show_popup` is set. -/
theorem capture_session_result (strings : List String) (show_popup should_exit : Bool)
    (s : State) :
    capture_session strings show_popup should_exit s =
      if String.join strings = "" then
        Result.running none
          { s with
            captured_log := none
            gb_log_callback := false
            trace := s.trace ++
              [Effect.GB_set_log_callback true, Effect.GB_set_log_callback false] }
      else if should_exit then
        Result.exited 1
          { s with
            captured_log := some (String.join strings)
            gb_log_callback := false
            trace := s.trace ++
              [Effect.GB_set_log_callback true, Effect.GB_set_log_callback false] ++
              (if show_popup then [Effect.SDL_ShowSimpleMessageBox (String.join strings)] else []) }
      else
        Result.running (some (String.join strings))
          { s with
            captured_log := some (String.join strings)
            gb_log_callback := false
            trace := s.trace ++
              [Effect.GB_set_log_callback true, Effect.GB_set_log_callback false] ++
              (if show_popup then [Effect.SDL_ShowSimpleMessageBox (String.join strings)] else []) } := by
  rw [capture_session, capture_end strings show_popup should_exit (start_capturing_logs s) rfl rfl]
  by_cases hj : String.join strings = ""
  · simp [hj, start_capturing_logs, emit]
  · cases show_popup <;> cases should_exit <;> simp [hj, start_capturing_logs, emit]

/-! ## The deferred-command handler -/

theorem handle_pending_command_returns (logs : List String) (s : State)
    (hfile : s.filename ≠ none) :
    ∃ s1, handle_pending_command logs s =
      Result.running
        (decide (s.pending_command = Command.GB_SDL_NEW_FILE_COMMAND ∨
          s.pending_command = Command.GB_SDL_TOGGLE_MODEL_COMMAND)) s1 := by
  obtain ⟨filename, hf⟩ := Option.ne_none_iff_exists'.mp hfile
  cases hp : s.pending_command
  case GB_SDL_LOAD_STATE_COMMAND =>
    exact ⟨after_snapshot logs filename s,
      by rw [handle_pending_command_snapshot logs s filename hf (Or.inl hp)]; rfl⟩
  case GB_SDL_SAVE_STATE_COMMAND =>
    exact ⟨after_snapshot logs filename s,
      by rw [handle_pending_command_snapshot logs s filename hf (Or.inr hp)]; rfl⟩
  case GB_SDL_NO_COMMAND => exact ⟨s, by simp [handle_pending_command, hp]⟩
  case GB_SDL_NEW_FILE_COMMAND => exact ⟨s, by simp [handle_pending_command, hp]⟩
  case GB_SDL_RESET_COMMAND =>
    exact ⟨emit Effect.GB_reset s, by simp [handle_pending_command, hp]⟩
  case GB_SDL_TOGGLE_MODEL_COMMAND =>
    exact ⟨{ s with dmg := !s.dmg }, by simp [handle_pending_command, hp]⟩

/-- C2: with a program path in place (`filename` is not NULL, as everywhere in
the loop of `run`), `handle_pending_command` returns, and it returns true
exactly when the pending command is NewFile or ToggleModel; so it returns false
for None, Reset, SaveState and LoadState, whatever strings `logs` the engine
emitted during the snapshot call. -/
theorem handle_pending_command_restart (logs : List String) (s : State)
    (hfile : s.filename ≠ none) :
    ∃ s1, handle_pending_command logs s =
      Result.running
        (decide (s.pending_command = Command.GB_SDL_NEW_FILE_COMMAND ∨
          s.pending_command = Command.GB_SDL_TOGGLE_MODEL_COMMAND)) s1 :=
  handle_pending_command_returns logs s hfile

theorem handle_pending_command_restart_witness :
    ∃ s1, handle_pending_command ["Could not open save state"] example_state =
      Result.running
        (decide (example_state.pending_command = Command.GB_SDL_NEW_FILE_COMMAND ∨
          example_state.pending_command = Command.GB_SDL_TOGGLE_MODEL_COMMAND)) s1 :=
  handle_pending_command_restart ["Could not open save state"] example_state (by decide)

/-- C9: consuming ToggleModel returns true and flips `dmg`; consuming it again,
in any later state `s1` that still has the flag as the first call left it,
returns true again and leaves `dmg` as it was before the first call.  For every
other command `handle_pending_command` ends with `dmg` unchanged. -/
theorem toggle_model_twice (logs logs1 : List String) (s : State) :
    (s.pending_command = Command.GB_SDL_TOGGLE_MODEL_COMMAND →
      handle_pending_command logs s = Result.running true { s with dmg := !s.dmg } ∧
      ∀ s1 : State, s1.pending_command = Command.GB_SDL_TOGGLE_MODEL_COMMAND →
        s1.dmg = (!s.dmg) →
        handle_pending_command logs1 s1 = Result.running true { s1 with dmg := s.dmg }) ∧
    (s.pending_command ≠ Command.GB_SDL_TOGGLE_MODEL_COMMAND →
      (handle_pending_command logs s).state.dmg = s.dmg) := by
  refine ⟨fun hp => ⟨by simp [handle_pending_command, hp], fun s1 hp1 hd => ?_⟩, fun hp => ?_⟩
  · simp [handle_pending_command, hp1, hd]
  · cases hf : s.filename with
    | none =>
      cases hc : s.pending_command <;> simp_all [handle_pending_command, Result.state, emit]
    | some filename =>
      cases hc : s.pending_command
      case GB_SDL_LOAD_STATE_COMMAND =>
        rw [handle_pending_command_snapshot logs s filename hf (Or.inl hc)]
        simp [Result.state, after_snapshot]
      case GB_SDL_SAVE_STATE_COMMAND =>
        rw [handle_pending_command_snapshot logs s filename hf (Or.inr hc)]
        simp [Result.state, after_snapshot]
      all_goals simp_all [handle_pending_command, Result.state, emit]

theorem toggle_model_twice_witness :
    (handle_pending_command []
        { example_state with pending_command := Command.GB_SDL_TOGGLE_MODEL_COMMAND } =
      Result.running true
        { example_state with
          pending_command := Command.GB_SDL_TOGGLE_MODEL_COMMAND, dmg := true } ∧
      handle_pending_command []
        { example_state with
          pending_command := Command.GB_SDL_TOGGLE_MODEL_COMMAND, dmg := true } =
      Result.running true
        { example_state with
          pending_command := Command.GB_SDL_TOGGLE_MODEL_COMMAND, dmg := false }) ∧
    (handle_pending_command ["no such file"] example_state).state.dmg = example_state.dmg :=
  ⟨⟨((toggle_model_twice [] []
        { example_state with pending_command := Command.GB_SDL_TOGGLE_MODEL_COMMAND }).1 rfl).1,
      ((toggle_model_twice [] []
        { example_state with pending_command := Command.GB_SDL_TOGGLE_MODEL_COMMAND }).1 rfl).2
        { example_state with
          pending_command := Command.GB_SDL_TOGGLE_MODEL_COMMAND, dmg := true } rfl rfl⟩,
    (toggle_model_twice ["no such file"] [] example_state).2 (by decide)⟩

/-! ## The event dispatcher -/

theorem Dispatched.refl (s : State) : Dispatched s s :=
  ⟨rfl, Or.inl rfl, Or.inl rfl, id, [], by simp, rfl⟩

theorem Dispatched.trans {s s1 s2 : State} (h1 : Dispatched s s1) (h2 : Dispatched s1 s2) :
    Dispatched s s2 := by
  obtain ⟨t1, ht1, hs1⟩ := h1.trace
  obtain ⟨t2, ht2, hs2⟩ := h2.trace
  refine ⟨h2.dmg_eq.trans h1.dmg_eq, ?_, ?_, fun h => h2.filename (h1.filename h), t1 ++ t2, ?_, ?_⟩
  · rcases h2.pending with h | h
    · rw [h]; exact h1.pending
    · exact Or.inr h
  · rcases h2.parameter with h | h
    · rw [h]; exact h1.parameter
    · exact Or.inr h
  · rw [ht2, ht1, List.append_assoc]
  · rw [List.all_append, hs1, hs2]; rfl

theorem Dispatched.of_emit (e : Effect) (s : State) (he : applies_command e = false) :
    Dispatched s (emit e s) :=
  ⟨rfl, Or.inl rfl, Or.inl rfl, id, [e], rfl, by simp [he]⟩

theorem Dispatched.of_emits (es : List Effect) (s : State)
    (he : es.all (fun e => !applies_command e) = true) :
    Dispatched s (emits es s) :=
  ⟨rfl, Or.inl rfl, Or.inl rfl, id, es, rfl, he⟩

/-- A change of the variables only, with no call. -/
theorem Dispatched.assign {s s1 : State} (hd : s1.dmg = s.dmg)
    (hp : s1.pending_command = s.pending_command ∨
      s1.pending_command ≠ Command.GB_SDL_NO_COMMAND)
    (hc : s1.command_parameter = s.command_parameter ∨
      (0 ≤ s1.command_parameter ∧ s1.command_parameter ≤ 9))
    (hf : s.filename ≠ none → s1.filename ≠ none) (ht : s1.trace = s.trace) :
    Dispatched s s1 :=
  ⟨hd, hp, hc, hf, [], by simp [ht], rfl⟩

theorem Dispatched.ite {c : Prop} [Decidable c] {s a b : State}
    (ha : c → Dispatched s a) (hb : ¬c → Dispatched s b) :
    Dispatched s (if c then a else b) := by
  by_cases h : c
  · rw [if_pos h]; exact ha h
  · rw [if_neg h]; exact hb h

theorem keyup_switch_dispatched (event : SDL_Event) (s : State) :
    Dispatched s (keyup_switch event s) := by
  unfold keyup_switch
  repeat' (apply Dispatched.ite <;> intro)
  all_goals first
    | exact Dispatched.refl s
    | exact Dispatched.of_emit _ s rfl

theorem SDL_PauseAudio_dispatched (pause_on : Bool) (s : State) :
    Dispatched s (SDL_PauseAudio pause_on s) :=
  Dispatched.trans
    (@Dispatched.assign s { s with audio_playing := !pause_on } rfl (Or.inl rfl)
      (Or.inl rfl) id rfl)
    (Dispatched.of_emit (Effect.SDL_PauseAudio pause_on) _ rfl)

theorem keydown_switch_dispatched (apple : Bool) (event : SDL_Event) (s : State) :
    Dispatched s (keydown_switch apple event s) := by
  unfold keydown_switch
  repeat' (apply Dispatched.ite <;> intro)
  all_goals first
    | exact Dispatched.refl s
    | exact Dispatched.of_emit _ s rfl
    | exact SDL_PauseAudio_dispatched _ s
    | exact Dispatched.assign rfl (Or.inl rfl) (Or.inl rfl) id rfl
    | exact Dispatched.trans (Dispatched.assign rfl (Or.inl rfl) (Or.inl rfl) id rfl)
        (Dispatched.of_emit _ _ rfl)
    | (refine Dispatched.assign rfl (Or.inr ?_) (Or.inl rfl) id rfl
       simp)
    | (refine Dispatched.assign rfl (Or.inr ?_) (Or.inr ?_) id rfl
       · simp
       · simp only [SDLK_0, SDLK_9] at *
         constructor <;> omega)

theorem set_filename_dispatched (filename : String) (flag : Bool) (s : State) :
    Dispatched s (set_filename (some filename) flag s) := by
  unfold set_filename
  cases hf : s.filename with
  | none => exact Dispatched.assign rfl (Or.inl rfl) (Or.inl rfl) (fun _ => by simp) rfl
  | some old =>
    by_cases hs : s.should_free_filename = true
    · simp only [hs, if_true]
      exact Dispatched.trans (Dispatched.of_emit (Effect.SDL_free old) s rfl)
        (Dispatched.assign rfl (Or.inl rfl) (Or.inl rfl) (fun _ => by simp) rfl)
    · simp only [hs]
      exact Dispatched.assign rfl (Or.inl rfl) (Or.inl rfl) (fun _ => by simp) rfl

theorem handle_event_dispatched (apple : Bool) (event : SDL_Event) (s : State) :
    Dispatched s (handle_event apple event s).state := by
  unfold handle_event
  by_cases h1 : event.type = SDL_QUIT
  · rw [if_pos h1]
    exact Dispatched.of_emit _ s rfl
  rw [if_neg h1]
  by_cases h2 : event.type = SDL_DROPFILE
  · rw [if_pos h2]
    refine Dispatched.trans (set_filename_dispatched event.drop_file true s) ?_
    refine Dispatched.assign rfl (Or.inr ?_) (Or.inl rfl) id rfl
    simp [Result.state]
  rw [if_neg h2]
  by_cases h3 : event.type = SDL_WINDOWEVENT
  · rw [if_pos h3]
    have h0 : Dispatched s
        (if event.window_event = SDL_WINDOWEVENT_RESIZED then
          emit Effect.update_viewport s else s) :=
      Dispatched.ite (fun _ => Dispatched.of_emit _ s rfl) (fun _ => Dispatched.refl s)
    exact Dispatched.trans h0
      (Dispatched.trans (keydown_switch_dispatched apple event _) (keyup_switch_dispatched event _))
  rw [if_neg h3]
  by_cases h4 : event.type = SDL_KEYDOWN
  · rw [if_pos h4]
    exact Dispatched.trans (keydown_switch_dispatched apple event _)
      (keyup_switch_dispatched event _)
  rw [if_neg h4]
  by_cases h5 : event.type = SDL_KEYUP
  · rw [if_pos h5]
    exact keyup_switch_dispatched event s
  rw [if_neg h5]
  exact Dispatched.refl s

theorem handle_events_dispatched (apple : Bool) (events : List SDL_Event) (s : State) :
    Dispatched s (handle_events apple events s).state := by
  induction events generalizing s with
  | nil => exact Dispatched.refl s
  | cons event rest ih =>
    have h := handle_event_dispatched apple event s
    simp only [handle_events]
    cases hr : handle_event apple event s with
    | running v s1 =>
      rw [hr] at h
      exact Dispatched.trans h (ih s1)
    | exited c s1 => rw [hr] at h; exact h
    | undefined s1 => rw [hr] at h; exact h

theorem vblank_dispatched (apple : Bool) (events : List SDL_Event) (s : State) :
    Dispatched s (vblank apple events s).state :=
  Dispatched.trans
    (Dispatched.of_emits [Effect.SDL_UpdateTexture, Effect.SDL_RenderClear, Effect.SDL_RenderCopy,
      Effect.SDL_RenderPresent] s rfl)
    (handle_events_dispatched apple events _)

theorem GB_run_dispatched (apple : Bool) (frames : List (List SDL_Event)) (s : State) :
    Dispatched s (GB_run apple frames s).state := by
  induction frames generalizing s with
  | nil => exact Dispatched.refl s
  | cons events rest ih =>
    have h := vblank_dispatched apple events s
    simp only [GB_run]
    cases hr : vblank apple events s with
    | running v s1 =>
      rw [hr] at h
      exact Dispatched.trans h (ih s1)
    | exited c s1 => rw [hr] at h; exact h
    | undefined s1 => rw [hr] at h; exact h

theorem run_step_dispatched (apple : Bool) (inp : StepInput) (s : State) :
    Dispatched s (run_step apple inp s).state := by
  unfold run_step
  split_ifs
  · exact Dispatched.trans (Dispatched.of_emit Effect.SDL_WaitEvent s rfl)
      (handle_events_dispatched apple _ _)
  · exact Dispatched.trans (Dispatched.of_emit Effect.GB_run s rfl) (GB_run_dispatched apple _ _)

theorem handle_event_returns_or_quits (apple : Bool) (event : SDL_Event) (s : State) :
    returns_or_quits (handle_event apple event s) := by
  unfold handle_event
  repeat' split
  all_goals simp [returns_or_quits]

theorem handle_events_returns_or_quits (apple : Bool) (events : List SDL_Event) (s : State) :
    returns_or_quits (handle_events apple events s) := by
  induction events generalizing s with
  | nil => simp [handle_events, returns_or_quits]
  | cons event rest ih =>
    have h := handle_event_returns_or_quits apple event s
    simp only [handle_events]
    cases hr : handle_event apple event s with
    | running v s1 => exact ih s1
    | exited c s1 => rw [hr] at h; exact h
    | undefined s1 => rw [hr] at h; exact h

theorem GB_run_returns_or_quits (apple : Bool) (frames : List (List SDL_Event)) (s : State) :
    returns_or_quits (GB_run apple frames s) := by
  induction frames generalizing s with
  | nil => simp [GB_run, returns_or_quits]
  | cons events rest ih =>
    have h : returns_or_quits (vblank apple events s) := handle_events_returns_or_quits apple _ _
    simp only [GB_run]
    cases hr : vblank apple events s with
    | running v s1 => exact ih s1
    | exited c s1 => rw [hr] at h; exact h
    | undefined s1 => rw [hr] at h; exact h

theorem run_step_returns_or_quits (apple : Bool) (inp : StepInput) (s : State) :
    returns_or_quits (run_step apple inp s) := by
  unfold run_step
  split
  · exact handle_events_returns_or_quits apple _ _
  · exact GB_run_returns_or_quits apple _ _

/-- C6: whatever events arrive, the frame callback `vblank` (and with it the
whole stepping part of an iteration of `run`: `GB_run` with every `vblank` it
triggers, or the paused wait followed by `handle_events`) ends, by return or by
`exit`, in a state where the model flag `dmg` is as before, the pending command
is as before or is a command other than None, and the calls made meanwhile
include no `GB_reset`, `GB_switch_model_and_reset`, `GB_save_state` or
`GB_load_state`. -/
theorem vblank_only_records_commands (apple : Bool) (events : List SDL_Event)
    (inp : StepInput) (s : State) :
    ((vblank apple events s).state.dmg = s.dmg ∧
      ((vblank apple events s).state.pending_command = s.pending_command ∨
        (vblank apple events s).state.pending_command ≠ Command.GB_SDL_NO_COMMAND) ∧
      ∃ t, (vblank apple events s).state.trace = s.trace ++ t ∧
        t.all (fun e => !applies_command e) = true) ∧
    ((run_step apple inp s).state.dmg = s.dmg ∧
      ((run_step apple inp s).state.pending_command = s.pending_command ∨
        (run_step apple inp s).state.pending_command ≠ Command.GB_SDL_NO_COMMAND) ∧
      ∃ t, (run_step apple inp s).state.trace = s.trace ++ t ∧
        t.all (fun e => !applies_command e) = true) :=
  ⟨⟨(vblank_dispatched apple events s).dmg_eq, (vblank_dispatched apple events s).pending,
      (vblank_dispatched apple events s).trace⟩,
    ⟨(run_step_dispatched apple inp s).dmg_eq, (run_step_dispatched apple inp s).pending,
      (run_step_dispatched apple inp s).trace⟩⟩

/-! ## The run loop -/

theorem run_command_clears (logs : List String) (s : State) (hfile : s.filename ≠ none) :
    ∃ s1, run_command logs s =
        Result.running
          (decide (s.pending_command = Command.GB_SDL_NEW_FILE_COMMAND ∨
            s.pending_command = Command.GB_SDL_TOGGLE_MODEL_COMMAND)) s1 ∧
      s1.pending_command = Command.GB_SDL_NO_COMMAND := by
  obtain ⟨s1, h1⟩ := handle_pending_command_returns logs s hfile
  refine ⟨{ s1 with pending_command := Command.GB_SDL_NO_COMMAND }, ?_, rfl⟩
  rw [run_command, h1]
  simp only [Result.bind]
  split <;> simp_all

/-- C1: one iteration of the loop of `run`, started with a program path in
place (`filename` is not NULL), for every pending command, slot parameter, and
whatever the events and the engine supply.  Either the stepping part leaves
through `exit(0)` on a quit event, before `handle_pending_command` is called;
or it returns in some state `s1`, `handle_pending_command` is called, and the
iteration ends with `pending_command` equal to `GB_SDL_NO_COMMAND`, on the
restart path when the command pending in `s1` is NewFile or ToggleModel and on
the continue path otherwise. -/
theorem run_iteration_clears_pending (apple : Bool) (inp : StepInput) (s : State)
    (hfile : s.filename ≠ none) :
    (∃ s1, run_step apple inp s = Result.exited 0 s1 ∧
      run_iteration apple inp s = Result.exited 0 s1) ∨
    (∃ s1 s2, run_step apple inp s = Result.running () s1 ∧
      run_iteration apple inp s =
        Result.running
          (decide (s1.pending_command = Command.GB_SDL_NEW_FILE_COMMAND ∨
            s1.pending_command = Command.GB_SDL_TOGGLE_MODEL_COMMAND)) s2 ∧
      s2.pending_command = Command.GB_SDL_NO_COMMAND) := by
  have hq := run_step_returns_or_quits apple inp s
  have hd := run_step_dispatched apple inp s
  cases hr : run_step apple inp s with
  | running v s1 =>
    rw [hr] at hd
    obtain ⟨s2, h2, h3⟩ := run_command_clears inp.logs s1 (hd.filename hfile)
    exact Or.inr ⟨s1, s2, rfl, by rw [run_iteration, hr]; exact h2, h3⟩
  | exited c s1 =>
    rw [hr] at hq
    simp only [returns_or_quits] at hq
    subst hq
    exact Or.inl ⟨s1, rfl, by rw [run_iteration, hr]; rfl⟩
  | undefined s1 =>
    rw [hr] at hq
    exact absurd hq (by simp [returns_or_quits])

theorem run_iteration_clears_pending_witness :
    example_state.filename ≠ none ∧
    ((∃ s1, run_step false toggle_input example_state = Result.exited 0 s1 ∧
      run_iteration false toggle_input example_state = Result.exited 0 s1) ∨
    (∃ s1 s2, run_step false toggle_input example_state = Result.running () s1 ∧
      run_iteration false toggle_input example_state =
        Result.running
          (decide (s1.pending_command = Command.GB_SDL_NEW_FILE_COMMAND ∨
            s1.pending_command = Command.GB_SDL_TOGGLE_MODEL_COMMAND)) s2 ∧
      s2.pending_command = Command.GB_SDL_NO_COMMAND)) :=
  ⟨by decide, run_iteration_clears_pending false toggle_input example_state (by decide)⟩

/-- The restart path on a concrete input: Ctrl+T during a frame. -/
theorem run_iteration_toggle_example :
    run_iteration false toggle_input example_state =
      Result.running true
        { example_state with
          dmg := true
          pending_command := Command.GB_SDL_NO_COMMAND
          trace := [Effect.GB_run, Effect.SDL_UpdateTexture, Effect.SDL_RenderClear,
            Effect.SDL_RenderCopy, Effect.SDL_RenderPresent] } := by
  decide

/-- The continue path on a concrete input: SaveState in slot 3 is pending and
the engine reports a failure while saving. -/
theorem run_iteration_save_example :
    run_iteration false { events := [], frames := [], logs := ["Could not save"] }
        example_state =
      Result.running false
        { example_state with
          pending_command := Command.GB_SDL_NO_COMMAND
          captured_log := some "Could not save"
          trace := [Effect.GB_run, Effect.GB_set_log_callback true,
            Effect.GB_save_state (Path.replace_extension "game.gb" ".s3"),
            Effect.GB_set_log_callback false,
            Effect.SDL_ShowSimpleMessageBox "Could not save"] } := by
  decide

/-! ## Keys and pending commands -/

/-- C7: a key-down event whose key is the digit `d` (0..9).  With the platform
modifier held, `handle_events` returns with `command_parameter = d` and with
LoadState pending if shift is held too, SaveState pending otherwise; without the
modifier it returns with `pending_command` and `command_parameter` as they were.
And whatever the events, `handle_events` ends with `command_parameter` as it was
or in 0..9. -/
theorem digit_key_sets_snapshot_command (apple : Bool) (event : SDL_Event) (d : Nat) (s : State)
    (htype : event.type = SDL_KEYDOWN) (hd : d ≤ 9) (hsym : event.sym = SDLK_0 + (d : Int)) :
    (event.mod &&& MODIFIER apple ≠ 0 →
      ∃ s1, handle_events apple [event] s = Result.running () s1 ∧
        s1.command_parameter = (d : Int) ∧
        s1.pending_command =
          (if event.mod &&& KMOD_SHIFT ≠ 0 then Command.GB_SDL_LOAD_STATE_COMMAND
            else Command.GB_SDL_SAVE_STATE_COMMAND)) ∧
    (event.mod &&& MODIFIER apple = 0 →
      ∃ s1, handle_events apple [event] s = Result.running () s1 ∧
        s1.pending_command = s.pending_command ∧
        s1.command_parameter = s.command_parameter) ∧
    (∀ (events : List SDL_Event) (s0 : State),
      (handle_events apple events s0).state.command_parameter = s0.command_parameter ∨
      (0 ≤ (handle_events apple events s0).state.command_parameter ∧
        (handle_events apple events s0).state.command_parameter ≤ 9)) := by
  have h1 : event.sym ≠ SDLK_ESCAPE := by simp only [hsym, SDLK_0, SDLK_ESCAPE]; omega
  have h2 : event.sym ≠ SDLK_c := by simp only [hsym, SDLK_0, SDLK_c]; omega
  have h3 : event.sym ≠ SDLK_r := by simp only [hsym, SDLK_0, SDLK_r]; omega
  have h4 : event.sym ≠ SDLK_t := by simp only [hsym, SDLK_0, SDLK_t]; omega
  have h5 : event.sym ≠ SDLK_p := by simp only [hsym, SDLK_0, SDLK_p]; omega
  have h6 : event.sym ≠ SDLK_m := by simp only [hsym, SDLK_0, SDLK_m]; omega
  have h7 : event.sym ≠ SDLK_TAB := by simp only [hsym, SDLK_0, SDLK_TAB]; omega
  have h8 : SDLK_0 ≤ event.sym ∧ event.sym ≤ SDLK_9 := by
    simp only [hsym, SDLK_0, SDLK_9]; omega
  have k1 : event.sym ≠ SDLK_RIGHT := by simp only [hsym, SDLK_0, SDLK_RIGHT]; omega
  have k2 : event.sym ≠ SDLK_LEFT := by simp only [hsym, SDLK_0, SDLK_LEFT]; omega
  have k3 : event.sym ≠ SDLK_UP := by simp only [hsym, SDLK_0, SDLK_UP]; omega
  have k4 : event.sym ≠ SDLK_DOWN := by simp only [hsym, SDLK_0, SDLK_DOWN]; omega
  have k5 : event.sym ≠ SDLK_x := by simp only [hsym, SDLK_0, SDLK_x]; omega
  have k6 : event.sym ≠ SDLK_z := by simp only [hsym, SDLK_0, SDLK_z]; omega
  have k7 : event.sym ≠ SDLK_BACKSPACE := by simp only [hsym, SDLK_0, SDLK_BACKSPACE]; omega
  have k8 : event.sym ≠ SDLK_RETURN := by simp only [hsym, SDLK_0, SDLK_RETURN]; omega
  have k9 : event.sym ≠ SDLK_SPACE := by simp only [hsym, SDLK_0, SDLK_SPACE]; omega
  have hup : ∀ s0 : State, keyup_switch event s0 = s0 := by
    intro s0
    simp only [keyup_switch, if_neg k1, if_neg k2, if_neg k3, if_neg k4, if_neg k5, if_neg k6,
      if_neg k7, if_neg k8, if_neg k9]
  have hev : handle_events apple [event] s =
      Result.running () (keydown_switch apple event s) := by
    simp only [handle_events, handle_event, htype, hup]
    rfl
  have hdown : keydown_switch apple event s =
      if event.mod &&& MODIFIER apple ≠ 0 then
        if event.mod &&& KMOD_SHIFT ≠ 0 then
          { s with
            command_parameter := event.sym - SDLK_0
            pending_command := Command.GB_SDL_LOAD_STATE_COMMAND }
        else
          { s with
            command_parameter := event.sym - SDLK_0
            pending_command := Command.GB_SDL_SAVE_STATE_COMMAND }
      else s := by
    simp only [keydown_switch, if_neg h1, if_neg h2, if_neg h3, if_neg h4, if_neg h5, if_neg h6,
      if_neg h7, if_pos h8]
  refine ⟨fun hm => ⟨_, hev, ?_, ?_⟩, fun hm => ⟨_, hev, ?_, ?_⟩, fun events s0 => ?_⟩
  · rw [hdown, if_pos hm]
    split <;> simp [hsym]
  · rw [hdown, if_pos hm]
    split <;> rfl
  · rw [hdown, if_neg (by simpa using hm)]
  · rw [hdown, if_neg (by simpa using hm)]
  · exact (handle_events_dispatched apple events s0).parameter

theorem digit_key_sets_snapshot_command_witness :
    ∃ s1, handle_events false [ctrl_3] initial_state = Result.running () s1 ∧
      s1.command_parameter = ((3 : Nat) : Int) ∧
      s1.pending_command =
        (if ctrl_3.mod &&& KMOD_SHIFT ≠ 0 then Command.GB_SDL_LOAD_STATE_COMMAND
          else Command.GB_SDL_SAVE_STATE_COMMAND) :=
  (digit_key_sets_snapshot_command false ctrl_3 3 initial_state rfl (by decide) rfl).1
    (by decide)

/-- Modifier+3 gives SaveState with parameter 3, and modifier+shift+3 gives
LoadState with parameter 3, computed on the embedding. -/
theorem ctrl_3_example :
    (handle_events false [ctrl_3] initial_state).state.pending_command =
        Command.GB_SDL_SAVE_STATE_COMMAND ∧
      (handle_events false [ctrl_3] initial_state).state.command_parameter = 3 ∧
      (handle_events false [key_event SDL_KEYDOWN 51 0x0041] initial_state).state.pending_command =
        Command.GB_SDL_LOAD_STATE_COMMAND ∧
      (handle_events false [key_event SDL_KEYDOWN 51 0x0041] initial_state).state.command_parameter
        = 3 := by
  decide

theorem handle_events_singleton (apple : Bool) (event : SDL_Event) (s : State) :
    handle_events apple [event] s = handle_event apple event s := by
  simp only [handle_events]
  cases handle_event apple event s <;> rfl

theorem handle_event_keydown (apple : Bool) (event : SDL_Event) (s : State)
    (h : event.type = SDL_KEYDOWN) :
    handle_event apple event s =
      Result.running () (keyup_switch event (keydown_switch apple event s)) := by
  unfold handle_event
  rw [if_neg (by rw [h]; decide), if_neg (by rw [h]; decide), if_neg (by rw [h]; decide),
    if_pos h]

theorem handle_event_keyup (apple : Bool) (event : SDL_Event) (s : State)
    (h : event.type = SDL_KEYUP) :
    handle_event apple event s = Result.running () (keyup_switch event s) := by
  unfold handle_event
  rw [if_neg (by rw [h]; decide), if_neg (by rw [h]; decide), if_neg (by rw [h]; decide),
    if_neg (by rw [h]; decide), if_pos h]

/-- C10: for a key-down or key-up event on one of the eight mapped keys,
`handle_events` returns after exactly one outgoing call,
`GB_set_key_state (button, pressed)` with the button of that key and `pressed`
true exactly for a key-down; every variable of the state, among them the
pending command, its parameter and the pause flag, is as before. -/
theorem mapped_key_sets_button (apple : Bool) (event : SDL_Event) (button : GB_key) (s : State)
    (htype : event.type = SDL_KEYDOWN ∨ event.type = SDL_KEYUP)
    (hkey : mapped_key event.sym = some button) :
    handle_events apple [event] s =
        Result.running ()
          { s with
            trace := s.trace ++
              [Effect.GB_set_key_state button (decide (event.type = SDL_KEYDOWN))] } ∧
      (handle_events apple [event] s).state.pending_command = s.pending_command ∧
      (handle_events apple [event] s).state.command_parameter = s.command_parameter ∧
      (handle_events apple [event] s).state.paused = s.paused := by
  have hdown : keydown_switch apple event s = s := by
    unfold mapped_key at hkey
    unfold keydown_switch
    split_ifs at hkey <;>
      simp_all [SDLK_0, SDLK_9, SDLK_RIGHT, SDLK_LEFT, SDLK_UP, SDLK_DOWN, SDLK_x, SDLK_z,
        SDLK_BACKSPACE, SDLK_RETURN, SDLK_ESCAPE, SDLK_c, SDLK_r, SDLK_t, SDLK_p, SDLK_m,
        SDLK_TAB]
  have hup : keyup_switch event s =
      { s with
        trace := s.trace ++
          [Effect.GB_set_key_state button (decide (event.type = SDL_KEYDOWN))] } := by
    unfold mapped_key at hkey
    unfold keyup_switch
    split_ifs at hkey <;>
      simp_all [emit, SDLK_RIGHT, SDLK_LEFT, SDLK_UP, SDLK_DOWN, SDLK_x, SDLK_z,
        SDLK_BACKSPACE, SDLK_RETURN]
  have hev : handle_events apple [event] s =
      Result.running ()
        { s with
          trace := s.trace ++
            [Effect.GB_set_key_state button (decide (event.type = SDL_KEYDOWN))] } := by
    rcases htype with h | h
    · rw [handle_events_singleton, handle_event_keydown apple event s h, hdown, hup]
    · rw [handle_events_singleton, handle_event_keyup apple event s h, hup]
  rw [hev]
  exact ⟨rfl, rfl, rfl, rfl⟩

theorem mapped_key_sets_button_witness :
    handle_events false [key_event SDL_KEYUP SDLK_z 0] example_state =
        Result.running ()
          { example_state with
            trace := example_state.trace ++
              [Effect.GB_set_key_state GB_key.GB_KEY_B
                (decide ((key_event SDL_KEYUP SDLK_z 0).type = SDL_KEYDOWN))] } ∧
      (handle_events false [key_event SDL_KEYUP SDLK_z 0] example_state).state.pending_command =
        example_state.pending_command ∧
      (handle_events false [key_event SDL_KEYUP SDLK_z 0] example_state).state.command_parameter =
        example_state.command_parameter ∧
      (handle_events false [key_event SDL_KEYUP SDLK_z 0] example_state).state.paused =
        example_state.paused :=
  mapped_key_sets_button false (key_event SDL_KEYUP SDLK_z 0) GB_key.GB_KEY_B example_state
    (Or.inr rfl) (by decide)

theorem keyup_switch_pending (event : SDL_Event) (s : State) :
    (keyup_switch event s).pending_command = s.pending_command := by
  unfold keyup_switch
  repeat' split
  all_goals rfl

theorem keydown_switch_pending (apple : Bool) (event : SDL_Event) (s : State)
    (h : event.type = SDL_KEYDOWN) (hdrop : event.type ≠ SDL_DROPFILE) :
    (keydown_switch apple event s).pending_command =
      (listed_command apple event).getD s.pending_command := by
  unfold keydown_switch listed_command
  rw [if_neg hdrop, if_pos h]
  by_cases hm : event.mod &&& MODIFIER apple ≠ 0
  · simp only [if_pos hm]
    by_cases h1 : event.sym = SDLK_ESCAPE
    · simp [h1, emit, SDLK_ESCAPE, SDLK_r, SDLK_t, SDLK_0, SDLK_9]
    by_cases h2 : event.sym = SDLK_c
    · rw [if_neg h1, if_pos h2]
      simp only [h2, SDLK_c, SDLK_r, SDLK_t, SDLK_0, SDLK_9]
      split <;> simp [emit]
    by_cases h3 : event.sym = SDLK_r
    · simp [h3, SDLK_ESCAPE, SDLK_r, SDLK_c]
    by_cases h4 : event.sym = SDLK_t
    · simp [h4, SDLK_ESCAPE, SDLK_r, SDLK_c, SDLK_t]
    by_cases h5 : event.sym = SDLK_p
    · simp [h5, SDLK_ESCAPE, SDLK_r, SDLK_c, SDLK_t, SDLK_p, SDLK_0, SDLK_9]
    by_cases h6 : event.sym = SDLK_m
    · rw [if_neg h1, if_neg h2, if_neg h3, if_neg h4, if_neg h5, if_pos h6]
      simp only [h6, SDLK_m, SDLK_r, SDLK_t, SDLK_0, SDLK_9]
      split <;> simp [emit, SDL_PauseAudio]
    by_cases h7 : event.sym = SDLK_TAB
    · simp [h7, SDLK_ESCAPE, SDLK_r, SDLK_c, SDLK_t, SDLK_p, SDLK_m, SDLK_TAB, SDLK_0, SDLK_9, emit]
    rw [if_neg h1, if_neg h2, if_neg h3, if_neg h4, if_neg h5, if_neg h6, if_neg h7,
      if_neg h3, if_neg h4]
    by_cases h8 : SDLK_0 ≤ event.sym ∧ event.sym ≤ SDLK_9
    · rw [if_pos h8, if_pos h8]
      split <;> rfl
    · rw [if_neg h8, if_neg h8]
      rfl
  · simp only [if_neg hm]
    repeat' split
    all_goals rfl

theorem handle_event_pending (apple : Bool) (event : SDL_Event) (s : State)
    (hquit : event.type ≠ SDL_QUIT) (hwin : event.type ≠ SDL_WINDOWEVENT) :
    ∃ s1, handle_event apple event s = Result.running () s1 ∧
      s1.pending_command = (listed_command apple event).getD s.pending_command := by
  by_cases h2 : event.type = SDL_DROPFILE
  · refine ⟨_, by rw [handle_event, if_neg hquit, if_pos h2], ?_⟩
    simp [listed_command, h2]
  by_cases h4 : event.type = SDL_KEYDOWN
  · refine ⟨_, handle_event_keydown apple event s h4, ?_⟩
    rw [keyup_switch_pending, keydown_switch_pending apple event _ h4 h2]
  by_cases h5 : event.type = SDL_KEYUP
  · refine ⟨_, handle_event_keyup apple event s h5, ?_⟩
    rw [keyup_switch_pending]
    simp [listed_command, h2, h4]
  · refine ⟨s, by rw [handle_event, if_neg hquit, if_neg h2, if_neg hwin, if_neg h4, if_neg h5], ?_⟩
    simp [listed_command, h2, h4]

theorem getLast?_getD_cons (c d : Command) (l : List Command) :
    (c :: l).getLast?.getD d = l.getLast?.getD c := by
  rw [List.getLast?_cons]
  rfl

/-- Last write wins apart from window events: for every sequence of queued
events with no quit event and no window event, `handle_events` returns, and the
pending command is then the one written by the last event of the sequence that
writes a command (`listed_command`), or the command pending before the call
when no event writes one. -/
theorem handle_events_last_listed_write (apple : Bool) (events : List SDL_Event) (s : State)
    (hquit : ∀ event ∈ events, event.type ≠ SDL_QUIT)
    (hwin : ∀ event ∈ events, event.type ≠ SDL_WINDOWEVENT) :
    ∃ s1, handle_events apple events s = Result.running () s1 ∧
      s1.pending_command =
        ((events.filterMap (listed_command apple)).getLast?).getD s.pending_command := by
  induction events generalizing s with
  | nil => exact ⟨s, rfl, rfl⟩
  | cons event rest ih =>
    obtain ⟨s1, h1, hp1⟩ :=
      handle_event_pending apple event s (hquit event (List.mem_cons_self _ _))
        (hwin event (List.mem_cons_self _ _))
    obtain ⟨s2, h2, hp2⟩ := ih s1 (fun e he => hquit e (List.mem_cons_of_mem _ he))
      (fun e he => hwin e (List.mem_cons_of_mem _ he))
    refine ⟨s2, by simp only [handle_events, h1]; exact h2, ?_⟩
    rw [hp2, hp1]
    cases hw : listed_command apple event with
    | none => simp [List.filterMap_cons, hw]
    | some c =>
      rw [List.filterMap_cons_some hw, getLast?_getD_cons]
      rfl

/-- The sequence drop, Ctrl+R, X, Ctrl+T on the embedding: ToggleModel wins. -/
theorem overwriting_events_example :
    ∃ s1, handle_events false overwriting_events example_state = Result.running () s1 ∧
      s1.pending_command = Command.GB_SDL_TOGGLE_MODEL_COMMAND :=
  handle_events_last_listed_write false overwriting_events example_state (by decide) (by decide)

/-- C8, where the code departs from it: `window_moved_event` is neither a quit
event nor one of the events that write a command (no file drop, no key-down),
so the pending command should stay None; but its case in `handle_events` has
no `break` and runs the key-down `switch`, which reads its union bytes as
Ctrl+R, and `handle_events` returns with Reset pending. -/
theorem window_event_overwrites_pending :
    window_moved_event.type ≠ SDL_QUIT ∧
      window_moved_event.type ≠ SDL_KEYDOWN ∧
      listed_command false window_moved_event = none ∧
      restart_state.pending_command = Command.GB_SDL_NO_COMMAND ∧
      handle_events false [window_moved_event] restart_state =
        Result.running ()
          { restart_state with pending_command := Command.GB_SDL_RESET_COMMAND } := by
  decide

/-! ## Command-line parsing -/

/-- C4: for every argument vector, `main` ends in the usage error (version
line, usage message, `exit(1)`, no other call and so no window) exactly when
the vector is rejected: `argc > 3`, or `--dmg` more than once, or more than one
other argument.  Otherwise it goes on to create the window with `dmg` set
exactly when `--dmg` is among the arguments and `filename` the one other
argument, NULL when there is none. -/
theorem main_usage_iff (version : String) (argv : List String) :
    ((∃ s1, main version argv initial_state = Result.exited 1 s1 ∧
        s1.trace = usage_trace version argv) ↔ rejected argv = true) ∧
    (rejected argv = true ∨
      ∃ s1, main version argv initial_state = Result.running () s1 ∧
        s1.dmg = decide ("--dmg" ∈ argv.tail) ∧
        s1.filename = (argv.tail.filter (fun arg => arg ≠ "--dmg")).head? ∧
        Effect.SDL_CreateWindow ∈ s1.trace) := by
  match argv with
  | [] => simp [main, main_arguments, rejected, Result.bind, initial_state, emit, emits,
      SDL_PauseAudio]
  | [_] => simp [main, main_arguments, rejected, Result.bind, initial_state, emit, emits,
      SDL_PauseAudio]
  | [_, a] =>
    rcases eq_or_ne a "--dmg" with rfl | ha
    · simp [main, main_arguments, main_argument, rejected, Result.bind, initial_state, emit,
        emits, SDL_PauseAudio]
    · simp [main, main_arguments, main_argument, rejected, Result.bind, initial_state, emit,
        emits, SDL_PauseAudio, ha, ha.symm, List.count_cons]
  | [_, a, b] =>
    rcases eq_or_ne a "--dmg" with rfl | ha <;> rcases eq_or_ne b "--dmg" with rfl | hb
    · simp [main, main_arguments, main_argument, rejected, Result.bind, initial_state, emit,
        emits, SDL_PauseAudio, usage, usage_trace]
    · simp [main, main_arguments, main_argument, rejected, Result.bind, initial_state, emit,
        emits, SDL_PauseAudio, usage, usage_trace, hb, hb.symm, List.count_cons]
    · simp [main, main_arguments, main_argument, rejected, Result.bind, initial_state, emit,
        emits, SDL_PauseAudio, usage, usage_trace, ha, ha.symm, List.count_cons]
    · simp [main, main_arguments, main_argument, rejected, Result.bind, initial_state, emit,
        emits, SDL_PauseAudio, usage, usage_trace, ha, ha.symm, hb, hb.symm, List.count_cons]
  | _ :: _ :: _ :: _ :: _ =>
    simp [main, rejected, usage, usage_trace, initial_state, emit]

/-- The arguments `--dmg --dmg` are rejected, and `--dmg game.gb` is accepted,
computed on the embedding. -/
theorem main_example :
    main "0.9" ["sameboy", "--dmg", "--dmg"] initial_state =
        Result.exited 1
          { initial_state with
            dmg := true
            trace := [Effect.fprintf_stderr "SameBoy v0.9\n",
              Effect.fprintf_stderr "Usage: sameboy [--dmg] [rom]\n"] } ∧
      (main "0.9" ["sameboy", "--dmg", "game.gb"] initial_state).state.dmg = true ∧
      (main "0.9" ["sameboy", "--dmg", "game.gb"] initial_state).state.filename =
        some "game.gb" := by
  decide

/-! ## Fatal diagnostics at (re)initialisation -/

theorem GB_log_started (logs : List String) (call : Effect) (s : State) :
    GB_log logs (emit call (start_capturing_logs s)) =
      Result.running ()
        { s with
          captured_log := some (String.join logs)
          gb_log_callback := true
          trace := s.trace ++ [Effect.GB_set_log_callback true, call] } := by
  rw [GB_log_installed logs _ "" rfl rfl]
  simp [start_capturing_logs, emit]

theorem after_engine_init_dmg (s : State) : (after_engine_init s).dmg = s.dmg := by
  unfold after_engine_init
  split <;> rfl

/-- `run_load` up to the end of the boot-image capture session. -/
theorem run_load_boot (boot rom : LoadOutcome) (s : State) :
    run_load boot rom s =
      (end_capturing_logs true boot.error
        { after_engine_init s with
          captured_log := some (String.join boot.logs)
          gb_log_callback := true
          trace := (after_engine_init s).trace ++
            [Effect.GB_set_log_callback true, boot_call s] }).bind (fun _ s5 =>
        (end_capturing_logs true rom.error
          { s5 with
            captured_log := some (String.join rom.logs)
            gb_log_callback := true
            trace := s5.trace ++
              [Effect.GB_set_log_callback true, Effect.GB_load_rom s5.filename] }).bind
          (fun _ s8 => Result.running () s8)) := by
  have h1 : ∀ s2 : State,
      (if s2.dmg then
        emit (Effect.GB_load_boot_rom (Path.executable_relative_path "dmg_boot.bin")) s2
      else
        emit (Effect.GB_load_boot_rom (Path.executable_relative_path "cgb_boot.bin")) s2) =
      emit (boot_call s2) s2 := by
    intro s2
    unfold boot_call
    split <;> rfl
  have h2 : boot_call (start_capturing_logs (after_engine_init s)) = boot_call s := by
    simp only [boot_call, start_capturing_logs, emit, after_engine_init_dmg]
  unfold run_load
  simp only []
  rw [h1, h2, GB_log_started]
  simp only [Result.bind]
  congr 1
  funext _ s5
  rw [GB_log_started]

theorem end_capturing_logs_text (show_popup should_exit : Bool) (s : State) (text : String)
    (h : s.captured_log = some text) (ht : text ≠ "") :
    end_capturing_logs show_popup should_exit s =
      if should_exit then
        Result.exited 1
          { s with
            gb_log_callback := false
            trace := s.trace ++ [Effect.GB_set_log_callback false] ++
              (if show_popup then [Effect.SDL_ShowSimpleMessageBox text] else []) }
      else
        Result.running (some text)
          { s with
            gb_log_callback := false
            trace := s.trace ++ [Effect.GB_set_log_callback false] ++
              (if show_popup then [Effect.SDL_ShowSimpleMessageBox text] else []) } := by
  cases show_popup <;> cases should_exit <;> simp [end_capturing_logs, emit, h, ht]

theorem end_capturing_logs_empty (show_popup should_exit : Bool) (s : State)
    (h : s.captured_log = some "") :
    end_capturing_logs show_popup should_exit s =
      Result.running none
        { s with
          captured_log := none
          gb_log_callback := false
          trace := s.trace ++ [Effect.GB_set_log_callback false] } := by
  simp [end_capturing_logs, emit, h]

/-- C3, as stated, fails: both load calls report failure but emit no text, and
`run` neither shows anything nor exits; it goes on to the battery and symbol
files and reaches the loop. -/
theorem load_failure_without_text_goes_on :
    run_init { error := true, logs := [] } { error := true, logs := [] } restart_state =
      Result.running ()
        { restart_state with
          battery_save_path_ptr := some (Path.replace_extension "game.gb" ".sav")
          trace :=
            [Effect.GB_switch_model_and_reset true,
              Effect.GB_set_log_callback true,
              Effect.GB_load_boot_rom (Path.executable_relative_path "cgb_boot.bin"),
              Effect.GB_set_log_callback false,
              Effect.GB_set_log_callback true,
              Effect.GB_load_rom (some "game.gb"),
              Effect.GB_set_log_callback false,
              Effect.GB_load_battery (Path.replace_extension "game.gb" ".sav"),
              Effect.GB_debugger_load_symbol_file (Path.executable_relative_path "registers.sym"),
              Effect.GB_debugger_load_symbol_file (Path.replace_extension "game.gb" ".sym")] } := by
  decide

theorem end_capturing_logs_after_call (call : Effect) (text : String) (should_exit : Bool)
    (s : State) :
    end_capturing_logs true should_exit
        { s with
          captured_log := some text
          gb_log_callback := true
          trace := s.trace ++ [Effect.GB_set_log_callback true, call] } =
      if should_exit = true ∧ text ≠ "" then Result.exited 1 (after_load_call call text s)
      else Result.running (if text = "" then none else some text) (after_load_call call text s) := by
  by_cases ht : text = ""
  · subst ht
    rw [end_capturing_logs_empty _ _ _ rfl]
    simp [after_load_call]
  · rw [end_capturing_logs_text _ _ _ _ rfl ht]
    cases should_exit <;> simp [after_load_call, ht]

/-- C3, amended: the closed form of every (re)initialisation of `run`.  The
boot-image load ends in `after_load_call`: its text is shown in a popup exactly
when it is not empty.  When that load reported failure and the text is not
empty, the process exits there with status 1.  In every other case (no failure
reported, or no text emitted) `run` goes on to the program-image load, which
ends in `after_load_call` in the same way: popup exactly when its text is not
empty, exit with status 1 exactly when it reported failure and the text is not
empty, and otherwise `run` goes on to the battery and symbol files
(`run_configure`).  So a load call that emits no text shows no popup and does
not end the process, whatever it reports. -/
theorem load_failure_with_text_exits (boot rom : LoadOutcome) (s : State) :
    run_init boot rom s =
        (if boot.error = true ∧ String.join boot.logs ≠ "" then
          Result.exited 1
            (after_load_call (boot_call s) (String.join boot.logs) (after_engine_init s))
        else if rom.error = true ∧ String.join rom.logs ≠ "" then
          Result.exited 1
            (after_load_call (Effect.GB_load_rom s.filename) (String.join rom.logs)
              (after_load_call (boot_call s) (String.join boot.logs) (after_engine_init s)))
        else
          run_configure
            (after_load_call (Effect.GB_load_rom s.filename) (String.join rom.logs)
              (after_load_call (boot_call s) (String.join boot.logs) (after_engine_init s)))) ∧
      (∀ (call : Effect) (text : String) (s0 : State),
        (after_load_call call text s0).trace =
          s0.trace ++
            [Effect.GB_set_log_callback true, call, Effect.GB_set_log_callback false] ++
            (if text = "" then [] else [Effect.SDL_ShowSimpleMessageBox text])) := by
  have hfile : (after_engine_init s).filename = s.filename := by
    unfold after_engine_init
    split <;> rfl
  refine ⟨?_, fun call text s0 => rfl⟩
  rw [run_init, run_load_boot, end_capturing_logs_after_call]
  by_cases hb : boot.error = true ∧ String.join boot.logs ≠ ""
  · rw [if_pos hb, if_pos hb]
    rfl
  · rw [if_neg hb, if_neg hb]
    simp only [Result.bind]
    have hf : (after_load_call (boot_call s) (String.join boot.logs)
        (after_engine_init s)).filename = s.filename := hfile
    rw [end_capturing_logs_after_call, hf]
    by_cases hr : rom.error = true ∧ String.join rom.logs ≠ ""
    · rw [if_pos hr, if_pos hr]
    · rw [if_neg hr, if_neg hr]

/-- A boot-image load that only warns, followed by a program-image load that
reports failure without text, computed on the embedding: the warning is shown,
nothing is shown for the failure, and `run` reaches the loop. -/
theorem silent_rom_failure_example :
    run_init { error := false, logs := ["warn"] } { error := true, logs := [] } restart_state =
      Result.running ()
        { restart_state with
          battery_save_path_ptr := some (Path.replace_extension "game.gb" ".sav")
          trace :=
            [Effect.GB_switch_model_and_reset true,
              Effect.GB_set_log_callback true,
              Effect.GB_load_boot_rom (Path.executable_relative_path "cgb_boot.bin"),
              Effect.GB_set_log_callback false,
              Effect.SDL_ShowSimpleMessageBox "warn",
              Effect.GB_set_log_callback true,
              Effect.GB_load_rom (some "game.gb"),
              Effect.GB_set_log_callback false,
              Effect.GB_load_battery (Path.replace_extension "game.gb" ".sav"),
              Effect.GB_debugger_load_symbol_file (Path.executable_relative_path "registers.sym"),
              Effect.GB_debugger_load_symbol_file (Path.replace_extension "game.gb" ".sym")] } := by
  decide

/-- A failed boot-image load with text, computed on the embedding: the popup is
the last call and the process exits with status 1. -/
theorem boot_failure_example :
    run_init { error := true, logs := ["Could not open ", "boot ROM"] }
        { error := false, logs := [] } restart_state =
      Result.exited 1
        { restart_state with
          captured_log := some "Could not open boot ROM"
          trace :=
            [Effect.GB_switch_model_and_reset true,
              Effect.GB_set_log_callback true,
              Effect.GB_load_boot_rom (Path.executable_relative_path "cgb_boot.bin"),
              Effect.GB_set_log_callback false,
              Effect.SDL_ShowSimpleMessageBox "Could not open boot ROM"] } := by
  decide

end SameBoy
